import Mathlib

/-!
Shallow embedding of the bookmarks-api backend (NestJS + Prisma) and proofs
about its service layer.

Sources embedded here:
- `src/bookmark/bookmark.service.ts` (BookmarkService: getBookmarks,
  getBookmarkById, createBookmark, editBookmarkById, deleteBookmarkById);
- the AuthService / PrismaUserRepository / ArgonPasswordHashingService /
  GetUser code of the repository's design documents and decorator file.

The Prisma persistence collaborator is modelled as explicit state passing over
an in-memory table: each mutating operation returns the result together with
the table after the call, and a failing call returns the table unchanged.
-/

namespace BookmarksApi

/-- Error codes of `PrismaClientKnownRequestError` that the repository's code
inspects: `P2002` (unique-constraint violation, `uniqueViolation`) and `P2025`
(required record not found, raised by `update`/`delete` on a missing row,
`recordNotFound`). -/
inductive PrismaKnownError where
  | recordNotFound
  | uniqueViolation
deriving DecidableEq, Repr

/-- NestJS HTTP exceptions thrown by the services: `BadRequestException` (400),
`ForbiddenException` (403), `NotFoundException` (404); an error the code
rethrows untranslated surfaces as a generic 500 (`internalServerError`). -/
inductive HttpError where
  | badRequest (message : String)
  | forbidden (message : String)
  | notFound (message : String)
  | internalServerError
deriving DecidableEq, Repr

/-! ## Bookmark data model (`model Bookmark` of the Prisma schema) -/

/-- A stored bookmark row: numeric id, title, optional description, link, and
the owning account's id (`userId` foreign key). Timestamps are managed by the
storage engine and never read by the services, so they are not modelled. -/
structure Bookmark where
  id : Nat
  title : String
  description : Option String
  link : String
  userId : Nat
deriving DecidableEq, Repr

/-- Payload of `POST /bookmarks` (`CreateBookmarkDto`): required `title` and
`link`, optional `description`. The extra `userId` field models the raw JSON
object possibly carrying a `userId` key at the service boundary (the typed DTO
does not declare one, but `createBookmark` spreads the object, so a present key
takes effect); `none` means the key is absent. -/
structure CreateBookmarkDto where
  title : String
  description : Option String
  link : String
  userId : Option Nat
deriving DecidableEq, Repr

/-- Payload of `PATCH /bookmarks/:id` (`EditBookmarkDto`): every field
optional; `none` models an absent key, which the spread `{ ...dto }` omits so
the stored value is kept. -/
structure EditBookmarkDto where
  title : Option String
  description : Option String
  link : Option String
deriving DecidableEq, Repr

/-- The bookmark table of the Prisma collaborator: the stored rows plus the
autoincrement counter that assigns the next fresh id. -/
structure BookmarkDb where
  bookmarks : List Bookmark
  nextId : Nat
deriving DecidableEq, Repr

/-- The `where: { id: bookmarkId, userId }` filter used by every scoped
bookmark query of `BookmarkService`. -/
def bookmarkMatches (id userId : Nat) (b : Bookmark) : Bool :=
  b.id == id && b.userId == userId

/-- Prisma `bookmark.findMany({ where: { userId } })`: every row whose owner is
`userId`. -/
def prismaBookmarkFindMany (userId : Nat) (db : BookmarkDb) : List Bookmark :=
  db.bookmarks.filter (fun b => b.userId == userId)

/-- Prisma `bookmark.findFirst({ where: { id, userId } })`: the first row
matching both ids, or `none`. -/
def prismaBookmarkFindFirst (id userId : Nat) (db : BookmarkDb) : Option Bookmark :=
  db.bookmarks.find? (bookmarkMatches id userId)

/-- The `data` object passed to Prisma `bookmark.create`. -/
structure BookmarkCreateData where
  userId : Nat
  title : String
  description : Option String
  link : String
deriving DecidableEq, Repr

/-- Prisma `bookmark.create({ data })`: inserts a new row with the fresh
autoincrement id and returns it. -/
def prismaBookmarkCreate (data : BookmarkCreateData) (db : BookmarkDb) :
    Bookmark × BookmarkDb :=
  let b : Bookmark :=
    { id := db.nextId
      title := data.title
      description := data.description
      link := data.link
      userId := data.userId }
  (b, { bookmarks := db.bookmarks ++ [b], nextId := db.nextId + 1 })

/-- Application of the `data: { ...dto }` patch of Prisma `bookmark.update` to
a row: each field present in the dto overwrites the stored one, absent fields
are left alone. -/
def applyEdit (dto : EditBookmarkDto) (b : Bookmark) : Bookmark :=
  { b with
    title := dto.title.getD b.title
    description := (dto.description.map some).getD b.description
    link := dto.link.getD b.link }

/-- Prisma `bookmark.update({ where: { id, userId }, data })`: updates the row
matching both ids and returns it; if no row matches, raises `P2025` and leaves
the table unchanged. -/
def prismaBookmarkUpdate (id userId : Nat) (dto : EditBookmarkDto) (db : BookmarkDb) :
    Except PrismaKnownError Bookmark × BookmarkDb :=
  match db.bookmarks.find? (bookmarkMatches id userId) with
  | none => (.error .recordNotFound, db)
  | some b =>
      (.ok (applyEdit dto b),
       { bookmarks :=
           db.bookmarks.map (fun r => if bookmarkMatches id userId r then applyEdit dto r else r)
         nextId := db.nextId })

/-- Prisma `bookmark.delete({ where: { id, userId } })`: removes the row
matching both ids and returns it; if no row matches, raises `P2025` and leaves
the table unchanged. -/
def prismaBookmarkDelete (id userId : Nat) (db : BookmarkDb) :
    Except PrismaKnownError Bookmark × BookmarkDb :=
  match db.bookmarks.find? (bookmarkMatches id userId) with
  | none => (.error .recordNotFound, db)
  | some b =>
      (.ok b,
       { bookmarks := db.bookmarks.filter (fun r => !bookmarkMatches id userId r)
         nextId := db.nextId })

/-! ## BookmarkService (`src/bookmark/bookmark.service.ts`) -/

/-- `BookmarkService.getBookmarks(userId)`. -/
def getBookmarks (userId : Nat) (db : BookmarkDb) : List Bookmark :=
  prismaBookmarkFindMany userId db

/-- `BookmarkService.getBookmarkById(userId, bookmarkId)`: `findFirst` filtered
by both the bookmark id and the caller's `userId`. -/
def getBookmarkById (userId bookmarkId : Nat) (db : BookmarkDb) : Option Bookmark :=
  prismaBookmarkFindFirst bookmarkId userId db

/-- `BookmarkService.createBookmark(userId, dto)`: `create({ data: { userId,
...dto } })` — the dto's keys are spread after `userId`, so a `userId` key
carried by the payload overrides the caller's id. -/
def createBookmark (userId : Nat) (dto : CreateBookmarkDto) (db : BookmarkDb) :
    Bookmark × BookmarkDb :=
  prismaBookmarkCreate
    { userId := dto.userId.getD userId
      title := dto.title
      description := dto.description
      link := dto.link } db

/-- `BookmarkService.editBookmarkById(userId, bookmarkId, dto)`: `update`
filtered by both ids. -/
def editBookmarkById (userId bookmarkId : Nat) (dto : EditBookmarkDto) (db : BookmarkDb) :
    Except PrismaKnownError Bookmark × BookmarkDb :=
  prismaBookmarkUpdate bookmarkId userId dto db

/-- `BookmarkService.deleteBookmarkById(userId, bookmarkId)`: `delete` filtered
by both ids. -/
def deleteBookmarkById (userId bookmarkId : Nat) (db : BookmarkDb) :
    Except PrismaKnownError Bookmark × BookmarkDb :=
  prismaBookmarkDelete bookmarkId userId db

/-! ## Credential hashing (`ArgonPasswordHashingService`) -/

/-- Modelled from the spec: the argon2 library called by
`ArgonPasswordHashingService` is an external collaborator whose implementation
is not among the source files. Per §4.1 the hash is an opaque, salted value:
the `salt` field models the per-call salt (equal plaintexts with different
salts give unequal hashes) and verification compares against the hashed
plaintext. -/
structure ArgonHash where
  salt : Nat
  hashedPassword : String
deriving DecidableEq, Repr

/-- Modelled from the spec: `argon.hash(password)` with the salt drawn for this
call made explicit. `ArgonPasswordHashingService.hash` returns it unchanged. -/
def argonHash (salt : Nat) (password : String) : ArgonHash :=
  { salt := salt, hashedPassword := password }

/-- Modelled from the spec: `argon.verify(hash, password)` — true exactly when
`password` is the plaintext the hash was built from; a mismatch returns
`false` rather than failing. `ArgonPasswordHashingService.verify` returns it
unchanged. -/
def argonVerify (h : ArgonHash) (password : String) : Bool :=
  h.hashedPassword == password

/-! ## User persistence (`PrismaUserRepository` over the Prisma `User` model) -/

/-- A stored account row: numeric id, unique email, password hash. The hash
type is a parameter, matching the services' use of the hash as an opaque value
handed to the hashing collaborator. Optional names and timestamps are never
read by the auth code and are not modelled. -/
structure UserRec (H : Type) where
  id : Nat
  email : String
  hash : H
deriving DecidableEq, Repr

/-- The user table of the Prisma collaborator, with the autoincrement
counter. -/
structure UserDb (H : Type) where
  users : List (UserRec H)
  nextId : Nat
deriving DecidableEq, Repr

/-- Prisma `user.create({ data: { email, hash } })` under the schema's
`@unique` constraint on `email`: raises `P2002` (and leaves the table
unchanged) when a row with that email already exists, otherwise inserts a row
with the fresh autoincrement id. -/
def prismaUserCreate {H : Type} (email : String) (hash : H) (db : UserDb H) :
    Except PrismaKnownError (UserRec H) × UserDb H :=
  if db.users.any (fun u => u.email == email) then
    (.error .uniqueViolation, db)
  else
    let u : UserRec H := { id := db.nextId, email := email, hash := hash }
    (.ok u, { users := db.users ++ [u], nextId := db.nextId + 1 })

/-- Prisma `user.findUnique({ where: { email } })`: the row with that email,
or `none`. -/
def userRepoFindByEmail {H : Type} (email : String) (db : UserDb H) :
    Option (UserRec H) :=
  db.users.find? (fun u => u.email == email)

/-- Domain exceptions of the repository layer; `duplicateEmail` is
`DuplicateEmailException`. -/
inductive DomainError where
  | duplicateEmail (email : String)
deriving DecidableEq, Repr

/-- Message of `DuplicateEmailException(email)`. -/
def duplicateEmailMessage (email : String) : String :=
  "Email " ++ email ++ " is already taken"

/-- `PrismaUserRepository.create(email, hash)`: calls Prisma `user.create`,
translates a `P2002` unique violation into `DuplicateEmailException`, and
rethrows any other error untranslated (`Sum.inr`). -/
def userRepoCreate {H : Type} (email : String) (hash : H) (db : UserDb H) :
    Except (DomainError ⊕ PrismaKnownError) (UserRec H) × UserDb H :=
  match prismaUserCreate email hash db with
  | (.ok u, db') => (.ok u, db')
  | (.error .uniqueViolation, db') => (.error (Sum.inl (.duplicateEmail email)), db')
  | (.error e, db') => (.error (Sum.inr e), db')

/-! ## AuthService -/

/-- Payload of `POST /auth/signup` and `POST /auth/signin` (`AuthDto`). -/
structure AuthDto where
  email : String
  password : String
deriving DecidableEq, Repr

/-- Modelled from the spec: `AuthValidationService.validateSignupData` (the
implementation bound to `IValidationService` is not among the source files).
Per §4.4 signup must "reject with `ValidationFailure` if email or password is
empty"; the check passes exactly when both fields are non-empty. -/
def validateSignupData (dto : AuthDto) : Bool :=
  !(dto.email == "") && !(dto.password == "")

/-- Modelled from the spec: the message of the `ValidationFailure` (400)
raised when `validateSignupData` rejects a payload. -/
def validationFailureMessage : String := "Validation failed"

/-- Message of the `ForbiddenException` raised on a failed signin. -/
def credentialsIncorrectMessage : String := "Credentials incorrect"

/-- `AuthService.signup(dto)`: validate the payload, hash the password with the
hashing collaborator (`hashFn`), create the account through the repository;
a `DuplicateEmailException` is caught and re-raised as
`ForbiddenException(error.message)`, any other repository error is rethrown
(surfacing as a 500); on success issue a token (`tokFn`) for the new account's
id and email and return it. -/
def signup {H T : Type} (hashFn : String → H) (tokFn : Nat → String → T)
    (dto : AuthDto) (db : UserDb H) : Except HttpError T × UserDb H :=
  if validateSignupData dto then
    match userRepoCreate dto.email (hashFn dto.password) db with
    | (.ok user, db') => (.ok (tokFn user.id user.email), db')
    | (.error (Sum.inl (.duplicateEmail e)), db') =>
        (.error (.forbidden (duplicateEmailMessage e)), db')
    | (.error (Sum.inr _), db') => (.error .internalServerError, db')
  else
    (.error (.badRequest validationFailureMessage), db)

/-- `AuthService.signin(dto)`: look the account up by email — if absent, throw
`ForbiddenException('Credentials incorrect')`; verify the password against the
stored hash with the hashing collaborator (`verifyFn`) — on mismatch throw the
same exception; on match issue a token. Signin performs no validation call of
its own. It reads but never writes the user table. -/
def signin {H T : Type} (verifyFn : H → String → Bool) (tokFn : Nat → String → T)
    (dto : AuthDto) (db : UserDb H) : Except HttpError T :=
  match userRepoFindByEmail dto.email db with
  | none => .error (.forbidden credentialsIncorrectMessage)
  | some user =>
      if verifyFn user.hash dto.password then .ok (tokFn user.id user.email)
      else .error (.forbidden credentialsIncorrectMessage)

/-! ## GetUser decorator (identity extractor) -/

/-- Result of the `GetUser` param decorator: the literal `null` when the
request carries no resolved user, the value of one claim (`none` models the
JavaScript `undefined` returned for an absent key), or the whole identity
object. Claim values are of a parameter type `V`, matching the decorator's
untyped `Record<string, any>`. -/
inductive GetUserResult (V : Type) where
  | null
  | claimValue (value : Option V)
  | wholeUser (user : List (String × V))
deriving DecidableEq, Repr

/-- The `GetUser` decorator body: `request.user ?? null` is `none ⇒ null`;
`if (data) return user[data]` — an `undefined` or empty claim name is falsy in
JavaScript, so only a present non-empty name selects a single claim;
otherwise the whole user object is returned. -/
def GetUser {V : Type} (data : Option String)
    (requestUser : Option (List (String × V))) : GetUserResult V :=
  match requestUser with
  | none => .null
  | some user =>
      match data with
      | some k => if k == "" then .wholeUser user else .claimValue (user.lookup k)
      | none => .wholeUser user

/-- Concrete token issuer standing in for `JwtTokenService.generateAccessToken`
when the generic auth services are instantiated on concrete inputs. -/
def tokenStub (userId : Nat) (email : String) : String :=
  toString userId ++ ":" ++ email

/-- Discriminator following the spec's words: is this error the
`ValidationFailure` kind, i.e. a 400 `BadRequestException`? -/
def HttpErrorIsBadRequest : HttpError → Bool
  | .badRequest _ => true
  | _ => false

/-- Discriminator following the spec's words: does this service outcome present
as a `ValidationFailure` (400) to the caller? -/
def resultIsValidationFailure {T : Type} : Except HttpError T → Bool
  | .error e => HttpErrorIsBadRequest e
  | .ok _ => false

/-! ## Theorems -/

/-- C1: for every caller account id `A` and bookmark id `K` such that no stored
bookmark has id `K` and owner `A` (in particular when the bookmark with id `K`
is owned by a different account), `getBookmarkById A K` yields `none` (Not
Found) and never the bookmark's data. -/
theorem getBookmarkById_unowned_not_found (A K : Nat) (db : BookmarkDb)
    (h : ∀ b ∈ db.bookmarks, ¬(b.id = K ∧ b.userId = A)) :
    getBookmarkById A K db = none := by
  unfold getBookmarkById prismaBookmarkFindFirst
  rw [List.find?_eq_none]
  intro b hb
  simp only [bookmarkMatches, Bool.and_eq_true, beq_iff_eq]
  exact h b hb

/-- Witness for C1: a bookmark with id 10 owned by account 2 is invisible to
account 1. -/
theorem getBookmarkById_unowned_not_found_witness :
    getBookmarkById 1 10 ⟨[⟨10, "t", none, "l", 2⟩], 11⟩ = none :=
  getBookmarkById_unowned_not_found 1 10 ⟨[⟨10, "t", none, "l", 2⟩], 11⟩ (by decide)

/-- C2: for every caller account id `A`, bookmark id `K` and patch such that no
stored bookmark has id `K` and owner `A`, `editBookmarkById` and
`deleteBookmarkById` fail with the record-not-found error and the bookmark
table — including any bookmark with id `K` owned by another account — is left
unchanged. -/
theorem edit_delete_unowned_fail_not_found (A K : Nat) (dto : EditBookmarkDto)
    (db : BookmarkDb) (h : ∀ b ∈ db.bookmarks, ¬(b.id = K ∧ b.userId = A)) :
    (editBookmarkById A K dto db).1 = Except.error PrismaKnownError.recordNotFound ∧
    (editBookmarkById A K dto db).2 = db ∧
    (deleteBookmarkById A K db).1 = Except.error PrismaKnownError.recordNotFound ∧
    (deleteBookmarkById A K db).2 = db := by
  have hfind : db.bookmarks.find? (bookmarkMatches K A) = none := by
    rw [List.find?_eq_none]
    intro b hb
    simp only [bookmarkMatches, Bool.and_eq_true, beq_iff_eq]
    exact h b hb
  refine ⟨?_, ?_, ?_, ?_⟩ <;>
    simp [editBookmarkById, prismaBookmarkUpdate, deleteBookmarkById,
      prismaBookmarkDelete, hfind]

/-- Witness for C2: editing and deleting bookmark 10 as account 1 while it is
owned by account 2 fails and leaves the table unchanged. -/
theorem edit_delete_unowned_fail_not_found_witness :
    (editBookmarkById 1 10 ⟨some "x", none, none⟩ ⟨[⟨10, "t", none, "l", 2⟩], 11⟩).1
        = Except.error PrismaKnownError.recordNotFound ∧
    (editBookmarkById 1 10 ⟨some "x", none, none⟩ ⟨[⟨10, "t", none, "l", 2⟩], 11⟩).2
        = ⟨[⟨10, "t", none, "l", 2⟩], 11⟩ ∧
    (deleteBookmarkById 1 10 ⟨[⟨10, "t", none, "l", 2⟩], 11⟩).1
        = Except.error PrismaKnownError.recordNotFound ∧
    (deleteBookmarkById 1 10 ⟨[⟨10, "t", none, "l", 2⟩], 11⟩).2
        = ⟨[⟨10, "t", none, "l", 2⟩], 11⟩ :=
  edit_delete_unowned_fail_not_found 1 10 ⟨some "x", none, none⟩
    ⟨[⟨10, "t", none, "l", 2⟩], 11⟩ (by decide)

/-- C7: for every caller account id and create payload (title, optional
description, link; no userId key of its own), after `createBookmark` returns
the new bookmark, `getBookmarkById` with the same account id and the new id
returns that bookmark, whose title, description and link are the payload's.
The hypothesis `hwf` is the autoincrement invariant: every stored id is below
the counter. -/
theorem create_then_get_roundtrip (A : Nat) (dto : CreateBookmarkDto) (db : BookmarkDb)
    (hwf : ∀ b ∈ db.bookmarks, b.id < db.nextId) (hnk : dto.userId = none) :
    getBookmarkById A (createBookmark A dto db).1.id (createBookmark A dto db).2
      = some (createBookmark A dto db).1 ∧
    (createBookmark A dto db).1.title = dto.title ∧
    (createBookmark A dto db).1.description = dto.description ∧
    (createBookmark A dto db).1.link = dto.link := by
  have hnone : db.bookmarks.find? (bookmarkMatches db.nextId A) = none := by
    rw [List.find?_eq_none]
    intro x hx
    have hlt := hwf x hx
    simp only [bookmarkMatches, Bool.and_eq_true, beq_iff_eq]
    rintro ⟨hid, -⟩
    omega
  refine ⟨?_, rfl, rfl, rfl⟩
  simp [createBookmark, prismaBookmarkCreate, getBookmarkById, prismaBookmarkFindFirst,
    hnk, List.find?_append, hnone, bookmarkMatches]

/-- Witness for C7: the end-to-end payload round-trips through create + get. -/
theorem create_then_get_roundtrip_witness :
    getBookmarkById 1
        (createBookmark 1 ⟨"Test bookmark", some "Test description", "https://test.com", none⟩
          ⟨[], 1⟩).1.id
        (createBookmark 1 ⟨"Test bookmark", some "Test description", "https://test.com", none⟩
          ⟨[], 1⟩).2
      = some (createBookmark 1
          ⟨"Test bookmark", some "Test description", "https://test.com", none⟩ ⟨[], 1⟩).1 :=
  (create_then_get_roundtrip 1
    ⟨"Test bookmark", some "Test description", "https://test.com", none⟩ ⟨[], 1⟩
    (by simp) rfl).1

/-- C8: for every caller account id `A` and bookmark id `K`, after a successful
`deleteBookmarkById A K`, a subsequent `getBookmarkById A K` on the resulting
table returns `none` (Not Found). -/
theorem delete_then_get_not_found (A K : Nat) (db : BookmarkDb) (b : Bookmark)
    (_h : (deleteBookmarkById A K db).1 = Except.ok b) :
    getBookmarkById A K (deleteBookmarkById A K db).2 = none := by
  unfold getBookmarkById prismaBookmarkFindFirst deleteBookmarkById prismaBookmarkDelete
  cases hfind : db.bookmarks.find? (bookmarkMatches K A) with
  | none => simp [hfind]
  | some b0 =>
      simp only [hfind]
      rw [List.find?_eq_none]
      intro x hx
      have hmem := List.mem_filter.mp hx
      simp only [Bool.not_eq_true'] at hmem
      simp [hmem.2]

/-- Witness for C8: deleting the sole bookmark of account 1 makes the
subsequent lookup return `none`. -/
theorem delete_then_get_not_found_witness :
    getBookmarkById 1 10 (deleteBookmarkById 1 10 ⟨[⟨10, "t", none, "l", 1⟩], 11⟩).2 = none :=
  delete_then_get_not_found 1 10 ⟨[⟨10, "t", none, "l", 1⟩], 11⟩
    ⟨10, "t", none, "l", 1⟩ rfl

/-- C9: for every caller account id and create payload without a `userId` key,
the bookmark persisted by `createBookmark` is owned by the caller; because the
payload is spread after the `userId` field, a payload carrying its own
`userId` key overrides the caller's id instead. -/
theorem createBookmark_owner_spread (A : Nat) (dto : CreateBookmarkDto) (db : BookmarkDb) :
    (dto.userId = none → (createBookmark A dto db).1.userId = A) ∧
    ∀ u, dto.userId = some u → (createBookmark A dto db).1.userId = u := by
  constructor
  · intro h
    simp [createBookmark, prismaBookmarkCreate, h]
  · intro u h
    simp [createBookmark, prismaBookmarkCreate, h]

/-- Witness for C9: without a `userId` key the caller (account 7) owns the new
bookmark; with a `userId: 9` key the payload's value wins. -/
theorem createBookmark_owner_spread_witness :
    (createBookmark 7 ⟨"t", none, "l", none⟩ ⟨[], 1⟩).1.userId = 7 ∧
    (createBookmark 7 ⟨"t", none, "l", some 9⟩ ⟨[], 1⟩).1.userId = 9 :=
  ⟨(createBookmark_owner_spread 7 ⟨"t", none, "l", none⟩ ⟨[], 1⟩).1 rfl,
   (createBookmark_owner_spread 7 ⟨"t", none, "l", some 9⟩ ⟨[], 1⟩).2 9 rfl⟩

/-- C3: for every signin attempt, a non-existent email and an existing email
with a wrong password fail with the same failure kind and the same message
(`ForbiddenException('Credentials incorrect')`), so the two causes are
indistinguishable to the caller. -/
theorem signin_uniform_failure {H T : Type} (verifyFn : H → String → Bool)
    (tokFn : Nat → String → T) (dtoA dtoB : AuthDto) (dbA dbB : UserDb H)
    (u : UserRec H)
    (hA : userRepoFindByEmail dtoA.email dbA = none)
    (hB : userRepoFindByEmail dtoB.email dbB = some u)
    (hpw : verifyFn u.hash dtoB.password = false) :
    signin verifyFn tokFn dtoA dbA
        = Except.error (HttpError.forbidden credentialsIncorrectMessage) ∧
    signin verifyFn tokFn dtoB dbB
        = Except.error (HttpError.forbidden credentialsIncorrectMessage) ∧
    signin verifyFn tokFn dtoA dbA = signin verifyFn tokFn dtoB dbB := by
  have h1 : signin verifyFn tokFn dtoA dbA
      = Except.error (HttpError.forbidden credentialsIncorrectMessage) := by
    simp [signin, hA]
  have h2 : signin verifyFn tokFn dtoB dbB
      = Except.error (HttpError.forbidden credentialsIncorrectMessage) := by
    simp [signin, hB, hpw]
  exact ⟨h1, h2, h1.trans h2.symm⟩

/-- Witness for C3: an unknown email on an empty table and a wrong password for
a stored account produce identical signin outcomes. -/
theorem signin_uniform_failure_witness :
    signin argonVerify tokenStub ⟨"a@b", "x"⟩ (⟨[], 1⟩ : UserDb ArgonHash)
      = signin argonVerify tokenStub ⟨"c@d", "wrong"⟩
          ⟨[⟨1, "c@d", argonHash 0 "pw"⟩], 2⟩ :=
  (signin_uniform_failure argonVerify tokenStub ⟨"a@b", "x"⟩ ⟨"c@d", "wrong"⟩
    ⟨[], 1⟩ ⟨[⟨1, "c@d", argonHash 0 "pw"⟩], 2⟩ ⟨1, "c@d", argonHash 0 "pw"⟩
    rfl rfl rfl).2.2

/-- C4: a first signup with a fresh email succeeds and issues a token for the
new account; the resulting table contains that email; and every subsequent
signup of a valid payload with the same email fails — the persistence layer's
uniqueness violation is translated into `DuplicateEmailException` by the
repository and surfaces from the service as
`ForbiddenException('Email ... is already taken')`. -/
theorem signup_unique_email {H T : Type} (hashFn : String → H)
    (tokFn : Nat → String → T) (dto : AuthDto) (db : UserDb H)
    (hvalid : validateSignupData dto = true)
    (hfresh : ∀ u ∈ db.users, u.email ≠ dto.email) :
    (signup hashFn tokFn dto db).1 = Except.ok (tokFn db.nextId dto.email) ∧
    (∃ u ∈ (signup hashFn tokFn dto db).2.users, u.email = dto.email) ∧
    ∀ (dto' : AuthDto) (db' : UserDb H), dto'.email = dto.email →
      validateSignupData dto' = true →
      (∃ u ∈ db'.users, u.email = dto.email) →
      (userRepoCreate dto'.email (hashFn dto'.password) db').1
          = Except.error (Sum.inl (DomainError.duplicateEmail dto.email)) ∧
      (signup hashFn tokFn dto' db').1
          = Except.error (HttpError.forbidden (duplicateEmailMessage dto.email)) := by
  have hany : db.users.any (fun u => u.email == dto.email) = false := by
    simp only [List.any_eq_false]
    intro u hu
    simp [beq_eq_false_iff_ne, hfresh u hu]
  refine ⟨?_, ?_, ?_⟩
  · simp [signup, hvalid, userRepoCreate, prismaUserCreate, hany]
  · simp only [signup, hvalid, userRepoCreate, prismaUserCreate, hany, if_true]
    simp [hany]
    exact ⟨{ id := db.nextId, email := dto.email, hash := hashFn dto.password },
      Or.inr rfl, rfl⟩
  · intro dto' db' he hv' hdup
    obtain ⟨u, hu, hue⟩ := hdup
    have hex : ∃ x ∈ db'.users, x.email = dto.email := ⟨u, hu, hue⟩
    constructor
    · simp [userRepoCreate, prismaUserCreate, he, hex]
    · simp [signup, hv', userRepoCreate, prismaUserCreate, he, hex]

/-- Witness for C4: signing up `test@test.com` on an empty table succeeds with
a token; a second signup with the same email fails with the duplicate-email
message. -/
theorem signup_unique_email_witness :
    (signup (argonHash 0) tokenStub ⟨"test@test.com", "123456"⟩
        (⟨[], 1⟩ : UserDb ArgonHash)).1 = Except.ok "1:test@test.com" ∧
    (signup (argonHash 0) tokenStub ⟨"test@test.com", "654321"⟩
        (signup (argonHash 0) tokenStub ⟨"test@test.com", "123456"⟩
          (⟨[], 1⟩ : UserDb ArgonHash)).2).1
      = Except.error (HttpError.forbidden (duplicateEmailMessage "test@test.com")) := by
  have h := signup_unique_email (argonHash 0) tokenStub ⟨"test@test.com", "123456"⟩
    (⟨[], 1⟩ : UserDb ArgonHash) rfl (by simp)
  exact ⟨h.1, (h.2.2 ⟨"test@test.com", "654321"⟩
    (signup (argonHash 0) tokenStub ⟨"test@test.com", "123456"⟩
      (⟨[], 1⟩ : UserDb ArgonHash)).2 rfl rfl h.2.1).2⟩

/-- C5, counterexample: an all-empty signin payload is not rejected with a
`ValidationFailure` by the Auth Service — `signin` performs no validation call
and fails with the credential failure instead (the claim requires a
`ValidationFailure` for signin requests too). -/
theorem signin_empty_fields_cex :
    signin argonVerify tokenStub ⟨"", ""⟩ (⟨[], 1⟩ : UserDb ArgonHash)
        = Except.error (HttpError.forbidden credentialsIncorrectMessage) ∧
    resultIsValidationFailure
        (signin argonVerify tokenStub ⟨"", ""⟩ (⟨[], 1⟩ : UserDb ArgonHash)) = false :=
  ⟨rfl, rfl⟩

/-- C5, amended: a signup payload with an empty email or password is rejected
with the `ValidationFailure` (400) and the user table is untouched, but signin
performs no such defensive check: no signin outcome ever presents as a
`ValidationFailure`. -/
theorem auth_empty_fields (hashFn : String → ArgonHash)
    (verifyFn : ArgonHash → String → Bool) (tokFn : Nat → String → String)
    (dto : AuthDto) (db : UserDb ArgonHash)
    (hempty : dto.email = "" ∨ dto.password = "") :
    (signup hashFn tokFn dto db).1
        = Except.error (HttpError.badRequest validationFailureMessage) ∧
    (signup hashFn tokFn dto db).2 = db ∧
    resultIsValidationFailure (signin verifyFn tokFn dto db) = false := by
  have hv : validateSignupData dto = false := by
    rcases hempty with h | h <;> simp [validateSignupData, h]
  refine ⟨by simp [signup, hv], by simp [signup, hv], ?_⟩
  unfold signin
  cases userRepoFindByEmail dto.email db with
  | none => rfl
  | some u =>
      cases hvf : verifyFn u.hash dto.password <;>
        simp [hvf, resultIsValidationFailure, HttpErrorIsBadRequest]

/-- Witness for C5 (amended): an empty email on signup is rejected with the
400 validation failure. -/
theorem auth_empty_fields_witness :
    (signup (argonHash 0) tokenStub ⟨"", "123456"⟩ (⟨[], 1⟩ : UserDb ArgonHash)).1
        = Except.error (HttpError.badRequest validationFailureMessage) :=
  (auth_empty_fields (argonHash 0) argonVerify tokenStub ⟨"", "123456"⟩
    ⟨[], 1⟩ (Or.inl rfl)).1

/-- C6: for every password `p`, `verify (hash p) p` is true, and for every
`p' ≠ p`, `verify (hash p) p'` is false — and the mismatch returns `false`
rather than failing (verification is total). -/
theorem argon_hash_verify (salt : Nat) (p p' : String) (hne : p' ≠ p) :
    argonVerify (argonHash salt p) p = true ∧
    argonVerify (argonHash salt p) p' = false := by
  refine ⟨by simp [argonVerify, argonHash], ?_⟩
  simp only [argonVerify, argonHash, beq_eq_false_iff_ne, ne_eq]
  exact fun h => hne h.symm

/-- Witness for C6: the end-to-end password verifies against its own hash and a
wrong password does not. -/
theorem argon_hash_verify_witness :
    argonVerify (argonHash 0 "123456") "123456" = true ∧
    argonVerify (argonHash 0 "123456") "wrong" = false :=
  argon_hash_verify 0 "123456" "wrong" (by decide)

/-- C10: the `GetUser` extractor returns `null` whenever the request carries no
resolved user, regardless of the requested claim name; with a user present it
returns the requested claim's value for a non-empty claim name (`none`, i.e.
JavaScript `undefined`, when the claim is absent from the lookup), and returns
the whole identity object when the claim name is omitted or empty. -/
theorem getUser_extractor {V : Type} (data : Option String)
    (user : List (String × V)) (k : String) (hk : k ≠ "") :
    GetUser data (none : Option (List (String × V))) = GetUserResult.null ∧
    GetUser (some k) (some user) = GetUserResult.claimValue (user.lookup k) ∧
    GetUser none (some user) = GetUserResult.wholeUser user ∧
    GetUser (some "") (some user) = GetUserResult.wholeUser user := by
  refine ⟨rfl, ?_, rfl, by simp [GetUser]⟩
  simp [GetUser, hk]

/-- Witness for C10: requesting the `id` claim of a resolved user returns its
value. -/
theorem getUser_extractor_witness :
    GetUser (some "id") (some [("id", 7)]) = GetUserResult.claimValue (some 7) := by
  have h := getUser_extractor (some "id") [("id", 7)] "id" (by decide)
  simpa using h.2.1

end BookmarksApi
